import Mathlib

/-!
Shallow embedding of the sandbox host of the `knative-serving-wasm` runner
(the Rust crate under `src/runner/src`): the network policy engine
(`network.rs`), the configuration model (`config.rs`), the sandbox factory
and resource-quantity parsing (`server.rs`), and the OCI fetch (`oci.rs`).
Machine integers are `Nat` with an explicit `% 2 ^ 64` where 64-bit overflow
matters; Rust `Option`/`Result` become `Option`/`Except`; calls into the
standard library and the environment (IP textual parsing, DNS resolution at
startup, the filesystem, the OCI registry) are explicit parameters of the
embedding, fixed for the lifetime of the checker as the code fixes them.
-/

namespace KnRunner

/-- Strip one optional leading `+`, as the Rust unsigned-integer `FromStr`
implementations do before reading digits. -/
def stripPlus : List Char → List Char
  | '+' :: rest => rest
  | cs => cs

/-- Numeric value of a digit list, most significant digit first. -/
def digitsVal (cs : List Char) : Nat :=
  cs.foldl (fun a c => a * 10 + (c.toNat - 48)) 0

/-- Rust `str::parse` for an unsigned integer type with maximum `bound`:
an optional `+`, then one or more ASCII digits; a value past `bound`
(overflow) is a parse error. -/
def parseUInt (bound : Nat) (s : String) : Option Nat :=
  let cs := stripPlus s.data
  if cs ≠ [] ∧ cs.all Char.isDigit = true then
    if digitsVal cs ≤ bound then some (digitsVal cs) else none
  else none

/-- Rust `str::parse::<u16>`. -/
def parseU16 (s : String) : Option Nat := parseUInt 65535 s

/-- Rust `str::parse::<usize>` on the 64-bit targets the runner is built
for. -/
def parseUsize (s : String) : Option Nat := parseUInt (2 ^ 64 - 1) s

/-- Split a character list at the last occurrence of `sep`: the recursion
prefers a separator found further right. -/
def rsplitChars (sep : Char) : List Char → Option (List Char × List Char)
  | [] => none
  | c :: rest =>
    match rsplitChars sep rest with
    | some (l, r) => some (c :: l, r)
    | none => if c = sep then some ([], rest) else none

/-- Rust `str::rsplit_once`. -/
def rsplit_once (s : String) (sep : Char) : Option (String × String) :=
  match rsplitChars sep s.data with
  | some (l, r) => some (⟨l⟩, ⟨r⟩)
  | none => none

/-- Rust `str::starts_with` for a string pattern. -/
def startsWithStr (s pat : String) : Bool :=
  decide (s.data.take pat.data.length = pat.data)

/-- Rust `str::ends_with` for a string pattern. -/
def endsWithStr (s pat : String) : Bool :=
  pat.data.isSuffixOf s.data

/-- Remainder of `s` once a suffix of length `pat.length` is removed; used
to model the `Some` payload of `str::strip_suffix`. -/
def dropSuffixStr (s pat : String) : String :=
  ⟨s.data.take (s.data.length - pat.data.length)⟩

/-- Rust `str::trim`; the quantities the runner trims are ASCII. -/
def trimString (s : String) : String :=
  ⟨((s.data.dropWhile Char.isWhitespace).reverse.dropWhile Char.isWhitespace).reverse⟩

/-- Matcher of `trim_matches(|c| c == '[' || c == ']')` in `network.rs`. -/
def isBracketChar (c : Char) : Bool :=
  c == '[' || c == ']'

/-- Rust `str::trim_matches` for the bracket characters: strips them from
both ends repeatedly. -/
def trimBrackets (s : String) : String :=
  ⟨((s.data.dropWhile isBracketChar).reverse.dropWhile isBracketChar).reverse⟩

/-- Rust `Path::join` as `build_wasi_ctx` uses it: an absolute `sub`
replaces `base`; otherwise a `/` separator is inserted unless `base` is
empty or already ends with one. -/
def path_join (base sub : String) : String :=
  if startsWithStr sub "/" = true then sub
  else if base = "" ∨ endsWithStr base "/" = true then base ++ sub
  else base ++ "/" ++ sub

/-- Rust `std::net::IpAddr`, abstracted to its two variants; the textual
forms are interpreted by the `NetEnv` parameters below. -/
inductive IpAddr where
  | v4 (a b c d : Nat) : IpAddr
  | v6 (segments : List Nat) : IpAddr
deriving DecidableEq

/-- Rust `std::net::SocketAddr`: an IP address together with a port. -/
structure SocketAddr where
  ip : IpAddr
  port : Nat
deriving DecidableEq

/-- wasmtime-wasi `SocketAddrUse`: the five socket operations the checker is
consulted for. -/
inductive SocketAddrUse where
  | tcpBind
  | tcpConnect
  | udpBind
  | udpConnect
  | udpOutgoingDatagram
deriving DecidableEq

/-- config.rs `NetworkSpec`. -/
structure NetworkSpec where
  inherit : Bool
  allow_ip_name_lookup : Bool
  tcp_bind : List String
  tcp_connect : List String
  udp_bind : List String
  udp_connect : List String
  udp_outgoing : List String
deriving DecidableEq

/-- Standard-library routines the network engine calls, as parameters of the
embedding: `parseIp` is `str::parse::<IpAddr>`, `dns` is the name-resolution
backend consulted by `to_socket_addrs` at checker-construction time (`none`
models a resolver error), and `fmtIp` is the `Display` rendering of an
address. All three are fixed functions: the specification fixes the DNS
state at construction. -/
structure NetEnv where
  parseIp : String → Option IpAddr
  dns : String → Option (List IpAddr)
  fmtIp : IpAddr → String

/-- Rust `ToSocketAddrs` on the string `host:port`: the port part must parse
as a `u16`, otherwise resolution errors before any lookup, and every
returned address carries that port. A literal-address string resolves
without consulting real DNS, which the arbitrary `dns` parameter also
covers. -/
def to_socket_addrs (env : NetEnv) (host port : String) : Option (List SocketAddr) :=
  match parseU16 port with
  | none => none
  | some n =>
    match env.dns host with
    | none => none
    | some ips => some (ips.map (fun ip => ⟨ip, n⟩))

/-- network.rs `NetworkChecker::resolve_pattern`: `None` when the pattern
has no `:`, when its host part is `*` or already a literal IP, and when
resolution fails or returns no addresses; otherwise the resolved addresses
rendered back into `host:port` patterns, IPv6 ones re-bracketed. -/
def resolve_pattern (env : NetEnv) (pattern : String) : Option (List String) :=
  match rsplit_once pattern ':' with
  | none => none
  | some (host_pat, port_pat) =>
    if host_pat = "*" ∨ (env.parseIp host_pat).isSome = true then none
    else
      match to_socket_addrs env host_pat port_pat with
      | none => none
      | some addrs =>
        let resolved := addrs.map (fun addr =>
          match addr.ip with
          | IpAddr.v6 _ => "[" ++ env.fmtIp addr.ip ++ "]:" ++ toString addr.port
          | IpAddr.v4 _ _ _ _ => env.fmtIp addr.ip ++ ":" ++ toString addr.port)
        if resolved ≠ [] then some resolved else none

/-- network.rs `NetworkChecker`: the five declared lists and the
pattern-to-resolved-IP-patterns map; the `HashMap` is modelled by its lookup
function. -/
structure NetworkChecker where
  tcp_bind : List String
  tcp_connect : List String
  udp_bind : List String
  udp_connect : List String
  udp_outgoing : List String
  resolved_patterns : String → Option (List String)

/-- HashMap insertion, on the lookup-function model of the map. -/
def mapInsert (m : String → Option (List String)) (k : String) (v : List String) :
    String → Option (List String) :=
  fun q => if q = k then some v else m q

/-- Union of the five declared lists, as collected at the top of
`NetworkChecker::new`. -/
def NetworkSpec.allPatterns (s : NetworkSpec) : List String :=
  s.tcp_bind ++ s.tcp_connect ++ s.udp_bind ++ s.udp_connect ++ s.udp_outgoing

/-- One step of the resolution loop of `NetworkChecker::new`: record the
resolved patterns when resolution produced some. -/
def resolveStep (env : NetEnv) (m : String → Option (List String)) (pattern : String) :
    String → Option (List String) :=
  match resolve_pattern env pattern with
  | some resolved => mapInsert m pattern resolved
  | none => m

/-- network.rs `NetworkChecker::new`. The Rust code sorts the union of the
lists and drops the now-adjacent duplicates before resolving; the keys it
inserts are therefore pairwise distinct and each value is determined by its
key alone, so the resulting `HashMap` lookup is the one obtained by folding
over `List.dedup` of the union, which has the same set of keys. -/
def NetworkChecker.new (env : NetEnv) (network : NetworkSpec) : NetworkChecker :=
  { tcp_bind := network.tcp_bind
    tcp_connect := network.tcp_connect
    udp_bind := network.udp_bind
    udp_connect := network.udp_connect
    udp_outgoing := network.udp_outgoing
    resolved_patterns :=
      (network.allPatterns.dedup).foldl (resolveStep env) (fun _ => none) }

/-- Declared list selected for one socket use: the `match` at the top of
`NetworkChecker::get_patterns`. -/
def NetworkChecker.original (c : NetworkChecker) : SocketAddrUse → List String
  | SocketAddrUse.tcpBind => c.tcp_bind
  | SocketAddrUse.tcpConnect => c.tcp_connect
  | SocketAddrUse.udpBind => c.udp_bind
  | SocketAddrUse.udpConnect => c.udp_connect
  | SocketAddrUse.udpOutgoingDatagram => c.udp_outgoing

/-- network.rs `NetworkChecker::get_patterns`: the declared list for the
use, followed by the recorded resolved-IP patterns of each of its
entries. -/
def NetworkChecker.get_patterns (c : NetworkChecker) (use_ : SocketAddrUse) : List String :=
  c.original use_ ++
    (c.original use_).foldr
      (fun pattern acc =>
        (match c.resolved_patterns pattern with
         | some resolved => resolved
         | none => []) ++ acc)
      []

/-- Decision the body of the `for` loop of `NetworkChecker::check` takes for
a single pattern: the port part first (`*`, or the address's port written as
a decimal `u16`), then the host part (`*`, or a literal IP — brackets
trimmed — equal to the address's IP; a host that is neither matches nothing
directly). -/
def pattern_allows (env : NetEnv) (addr : SocketAddr) (pattern : String) : Bool :=
  match rsplit_once pattern ':' with
  | none => false
  | some (host_pat, port_pat) =>
    let port_matches := decide (port_pat = "*") || decide (parseU16 port_pat = some addr.port)
    if port_matches = false then false
    else if host_pat = "*" then true
    else
      match env.parseIp (trimBrackets host_pat) with
      | some ip => decide (addr.ip = ip)
      | none => false

/-- The `for` loop of network.rs `NetworkChecker::check`: the first matching
pattern returns `true` (allow), a pattern that does not match falls through,
and exhausting the list returns `false` (deny). -/
def check_loop (env : NetEnv) (addr : SocketAddr) : List String → Bool
  | [] => false
  | pattern :: rest =>
    match rsplit_once pattern ':' with
    | none => check_loop env addr rest
    | some (host_pat, port_pat) =>
      let port_matches := decide (port_pat = "*") || decide (parseU16 port_pat = some addr.port)
      if port_matches = false then check_loop env addr rest
      else
        let host_matches : Bool :=
          if host_pat = "*" then true
          else
            match env.parseIp (trimBrackets host_pat) with
            | some ip => decide (addr.ip = ip)
            | none => false
        if host_matches = true then true else check_loop env addr rest

/-- network.rs `NetworkChecker::check`. -/
def NetworkChecker.check (c : NetworkChecker) (env : NetEnv) (addr : SocketAddr)
    (use_ : SocketAddrUse) : Bool :=
  check_loop env addr (c.get_patterns use_)

/-- Match rules exactly as the specification's table states them: host `*`
with port `*` always matches; host `*` with decimal port `n` matches when
the address's port is `n`; a literal-IP host with port `*` matches when the
address equals the IP; a literal-IP host with decimal port `n` matches when
both agree; a DNS-name host never matches directly. -/
def patternMatchSpec (env : NetEnv) (pattern : String) (addr : SocketAddr) : Prop :=
  match rsplit_once pattern ':' with
  | none => False
  | some (host_pat, port_pat) =>
    if host_pat = "*" then
      (if port_pat = "*" then True else parseU16 port_pat = some addr.port)
    else
      match env.parseIp (trimBrackets host_pat) with
      | some ip =>
        (if port_pat = "*" then addr.ip = ip
         else addr.ip = ip ∧ parseU16 port_pat = some addr.port)
      | none => False

/-- Declared pattern list of a `NetworkSpec` for one socket use. -/
def NetworkSpec.listFor (s : NetworkSpec) : SocketAddrUse → List String
  | SocketAddrUse.tcpBind => s.tcp_bind
  | SocketAddrUse.tcpConnect => s.tcp_connect
  | SocketAddrUse.udpBind => s.udp_bind
  | SocketAddrUse.udpConnect => s.udp_connect
  | SocketAddrUse.udpOutgoingDatagram => s.udp_outgoing

/-- The spec with one pattern removed from every declared list. -/
def NetworkSpec.erasePattern (s : NetworkSpec) (p : String) : NetworkSpec :=
  { inherit := s.inherit
    allow_ip_name_lookup := s.allow_ip_name_lookup
    tcp_bind := s.tcp_bind.filter (fun q => q != p)
    tcp_connect := s.tcp_connect.filter (fun q => q != p)
    udp_bind := s.udp_bind.filter (fun q => q != p)
    udp_connect := s.udp_connect.filter (fun q => q != p)
    udp_outgoing := s.udp_outgoing.filter (fun q => q != p) }

/-- config.rs `EnvVar`. -/
structure EnvVar where
  name : String
  value : String
deriving DecidableEq

/-- config.rs `VolumeMount`. -/
structure VolumeMount where
  name : String
  mount_path : String
  read_only : Bool
  sub_path : String
deriving DecidableEq

/-- config.rs `ResourceRequirements`; the two `HashMap<String, String>` are
modelled by their lookup functions. -/
structure ResourceRequirements where
  limits : String → Option String
  requests : String → Option String

/-- config.rs `ResourceRequirements::get_memory`: the `limits` entry,
falling back to `requests`. -/
def ResourceRequirements.get_memory (r : ResourceRequirements) : Option String :=
  (r.limits "memory").orElse (fun _ => r.requests "memory")

/-- config.rs `ResourceRequirements::get_cpu`: the `limits` entry, falling
back to `requests`. -/
def ResourceRequirements.get_cpu (r : ResourceRequirements) : Option String :=
  (r.limits "cpu").orElse (fun _ => r.requests "cpu")

/-- config.rs `WasiConfig`, the deserialized configuration document. -/
structure WasiConfig where
  image : String
  args : List String
  env : List EnvVar
  volume_mounts : List VolumeMount
  resources : ResourceRequirements
  network : Option NetworkSpec

/-- Modelled from the spec: the image selection of the runner entrypoint.
The multi-component entrypoint that wires `config.rs`, `oci.rs`,
`network.rs` and `server.rs` together is not among the sources — the
retained `main.rs` is the superseded single-file iteration named by the
spec's design notes — so this follows the spec's words: choose the image
from the configuration's `image` field, and use the `IMAGE` environment
variable (here `image_env`, `none` when unset) only if that field is
empty. -/
def chooseImage (config : WasiConfig) (image_env : Option String) : Option String :=
  if config.image = "" then image_env else some config.image

/-- server.rs `parse_memory_quantity`. Each branch strips one Kubernetes
suffix and multiplies; chains such as `n * 1024 * 1024` are `usize`
multiplications on a 64-bit target, so the product is taken modulo `2 ^ 64`
(stepwise wrapping and one final reduction agree). -/
def parse_memory_quantity (s : String) : Option Nat :=
  let t := trimString s
  if endsWithStr t "Ei" = true then
    (parseUsize (dropSuffixStr t "Ei")).map
      (fun n => n * 1024 * 1024 * 1024 * 1024 * 1024 * 1024 % 2 ^ 64)
  else if endsWithStr t "Pi" = true then
    (parseUsize (dropSuffixStr t "Pi")).map
      (fun n => n * 1024 * 1024 * 1024 * 1024 * 1024 % 2 ^ 64)
  else if endsWithStr t "Ti" = true then
    (parseUsize (dropSuffixStr t "Ti")).map
      (fun n => n * 1024 * 1024 * 1024 * 1024 % 2 ^ 64)
  else if endsWithStr t "Gi" = true then
    (parseUsize (dropSuffixStr t "Gi")).map (fun n => n * 1024 * 1024 * 1024 % 2 ^ 64)
  else if endsWithStr t "Mi" = true then
    (parseUsize (dropSuffixStr t "Mi")).map (fun n => n * 1024 * 1024 % 2 ^ 64)
  else if endsWithStr t "Ki" = true then
    (parseUsize (dropSuffixStr t "Ki")).map (fun n => n * 1024 % 2 ^ 64)
  else if endsWithStr t "E" = true then
    (parseUsize (dropSuffixStr t "E")).map (fun n => n * 1000000000000000000 % 2 ^ 64)
  else if endsWithStr t "P" = true then
    (parseUsize (dropSuffixStr t "P")).map (fun n => n * 1000000000000000 % 2 ^ 64)
  else if endsWithStr t "T" = true then
    (parseUsize (dropSuffixStr t "T")).map (fun n => n * 1000000000000 % 2 ^ 64)
  else if endsWithStr t "G" = true then
    (parseUsize (dropSuffixStr t "G")).map (fun n => n * 1000000000 % 2 ^ 64)
  else if endsWithStr t "M" = true then
    (parseUsize (dropSuffixStr t "M")).map (fun n => n * 1000000 % 2 ^ 64)
  else if endsWithStr t "k" = true then
    (parseUsize (dropSuffixStr t "k")).map (fun n => n * 1000 % 2 ^ 64)
  else parseUsize t

/-- Suffix table of the specification's memory-quantity grammar: the binary
suffixes are powers of `2 ^ 10`, the decimal ones powers of `10 ^ 3`. -/
def memSuffixes : List (String × Nat) :=
  [("Ei", (2 ^ 10) ^ 6), ("Pi", (2 ^ 10) ^ 5), ("Ti", (2 ^ 10) ^ 4), ("Gi", (2 ^ 10) ^ 3),
   ("Mi", (2 ^ 10) ^ 2), ("Ki", (2 ^ 10) ^ 1),
   ("E", (10 ^ 3) ^ 6), ("P", (10 ^ 3) ^ 5), ("T", (10 ^ 3) ^ 4), ("G", (10 ^ 3) ^ 3),
   ("M", (10 ^ 3) ^ 2), ("k", (10 ^ 3) ^ 1)]

/-- Memory-quantity grammar as the specification words it, over the suffix
table, with the 64-bit wrap the machine arithmetic forces: find the suffix,
parse the decimal integer before it, multiply (modulo `2 ^ 64`); no suffix
means bytes; anything else fails to parse. -/
def memQuantityLookup (t : String) : List (String × Nat) → Option Nat
  | [] => parseUsize t
  | su :: rest =>
    if endsWithStr t su.1 = true then
      (parseUsize (dropSuffixStr t su.1)).map (fun n => n * su.2 % 2 ^ 64)
    else memQuantityLookup t rest

/-- Spec-side reading of the memory-quantity grammar, to be compared with
`parse_memory_quantity`. -/
def memory_quantity_spec (s : String) : Option Nat :=
  memQuantityLookup (trimString s) memSuffixes

/-- server.rs `build_store_limits`, reduced to its observable effect: the
memory ceiling installed in the store limits, `none` when no ceiling is
set. -/
def build_store_limits (config : WasiConfig) : Option Nat :=
  match config.resources.get_memory with
  | some memory_str => parse_memory_quantity memory_str
  | none => none

/-- Host path of a mount as server.rs `build_wasi_ctx` computes it:
`mountPath` when `subPath` is empty, `join(mountPath, subPath)`
otherwise. -/
def mount_host_path (m : VolumeMount) : String :=
  if m.sub_path = "" then m.mount_path else path_join m.mount_path m.sub_path

/-- Error text server.rs `build_wasi_ctx` produces for a missing mount path,
naming the mount and the path. -/
def mount_missing_msg (m : VolumeMount) : String :=
  "Volume mount \u0027" ++ m.name ++ "\u0027 path does not exist: " ++ mount_host_path m

/-- One preopened directory registered on the WASI context builder. -/
structure Preopen where
  host_path : String
  guest_path : String
  read_only : Bool
deriving DecidableEq

/-- Volume-mount loop of server.rs `build_wasi_ctx`, over a filesystem
`exists_` oracle: each mount's host path is computed and checked, and the
first missing path aborts the build with its error. -/
def build_preopens (exists_ : String → Bool) : List VolumeMount → Except String (List Preopen)
  | [] => Except.ok []
  | m :: rest =>
    if exists_ (mount_host_path m) = false then Except.error (mount_missing_msg m)
    else
      match build_preopens exists_ rest with
      | Except.ok ps => Except.ok (⟨mount_host_path m, m.mount_path, m.read_only⟩ :: ps)
      | Except.error e => Except.error e

/-- Observable result of server.rs `build_wasi_ctx`: stdio is always
inherited (not modelled further), argv and env applied in declared order,
the registered preopens, and the network capability mode. -/
structure WasiCtxModel where
  args : List String
  env_vars : List (String × String)
  preopens : List Preopen
  inherit_network : Bool
  socket_check_installed : Bool
  allow_ip_name_lookup : Bool

/-- server.rs `build_wasi_ctx`. -/
def build_wasi_ctx (exists_ : String → Bool) (config : WasiConfig) :
    Except String WasiCtxModel :=
  match build_preopens exists_ config.volume_mounts with
  | Except.error e => Except.error e
  | Except.ok ps =>
    Except.ok
      { args := config.args
        env_vars := config.env.map (fun v => (v.name, v.value))
        preopens := ps
        inherit_network :=
          match config.network with
          | some n => n.inherit
          | none => false
        socket_check_installed :=
          match config.network with
          | some n =>
            decide (n.inherit = false) &&
              (!n.tcp_bind.isEmpty || !n.tcp_connect.isEmpty || !n.udp_bind.isEmpty ||
               !n.udp_connect.isEmpty || !n.udp_outgoing.isEmpty)
          | none => false
        allow_ip_name_lookup :=
          match config.network with
          | some n => n.allow_ip_name_lookup
          | none => false }

/-- Message of server.rs `handle_request` for a guest that finished without
fulfilling the response outparam. -/
def outparam_msg : String :=
  "guest never invoked `response-outparam::set` method"

/-- Final `match` of server.rs `ServerState::handle_request`, as a pure
function of the two awaited outcomes. `recv` is the oneshot receiver's
result (`none` models the sender dropped without a `response-outparam::set`
call); `task` is the guest task's join result (outer `Except.error` models a
panicked/cancelled task, the inner one the guest's own error). An anyhow
error is modelled as its chain of messages, outermost context first, so
`context` is list cons; `bail!` in the guest-finished-cleanly branch returns
the bare message without a further context (the early return skips the
`.context(...)` line). -/
def handle_request_rendezvous (Resp : Type) (recv : Option (Except (List String) Resp))
    (task : Except (List String) (Except (List String) Unit)) : Except (List String) Resp :=
  match recv with
  | some (Except.ok resp) => Except.ok resp
  | some (Except.error e) => Except.error e
  | none =>
    match task with
    | Except.ok (Except.ok ()) => Except.error [outparam_msg]
    | Except.ok (Except.error e) => Except.error (outparam_msg :: e)
    | Except.error e => Except.error (outparam_msg :: e)

/-- An OCI artifact as the pull returns it: its layers, each a byte
string. -/
structure OciImage where
  layers : List (List Nat)
deriving DecidableEq

/-- Scheme strip at the top of oci.rs `fetch_oci_image`:
`imgname.strip_prefix("oci://").unwrap_or(imgname)`. -/
def strip_oci_scheme (imgname : String) : String :=
  if startsWithStr imgname "oci://" = true then ⟨imgname.data.drop "oci://".data.length⟩
  else imgname

/-- Body of oci.rs `fetch_oci_image` after the scheme strip: parse the
reference, pull anonymously, fail unless the artifact has exactly one layer
— the error text carrying the observed count — and return the layer's raw
bytes. `parseRef` stands for `str::parse::<Reference>` and `pull` for the
registry client; both are parameters since they reach the network. -/
def fetch_from_registry {Ref : Type} (parseRef : String → Except String Ref)
    (pull : Ref → Except String OciImage) (name : String) : Except String (List Nat) :=
  match parseRef name with
  | Except.error e => Except.error e
  | Except.ok imgref =>
    match pull imgref with
    | Except.error e => Except.error e
    | Except.ok image =>
      if image.layers.length ≠ 1 then
        Except.error ("expected to have one layer, got " ++ toString image.layers.length)
      else
        match image.layers.head? with
        | some wasm => Except.ok wasm
        | none => Except.error "expected to have one layer"

/-- oci.rs `fetch_oci_image`. -/
def fetch_oci_image {Ref : Type} (parseRef : String → Except String Ref)
    (pull : Ref → Except String OciImage) (imgname : String) : Except String (List Nat) :=
  fetch_from_registry parseRef pull (strip_oci_scheme imgname)

lemma bool_eq_of_iff {a b : Bool} (h : a = true ↔ b = true) : a = b := by
  cases a <;> cases b <;> simp_all

lemma check_loop_eq_any (env : NetEnv) (addr : SocketAddr) :
    ∀ l : List String, check_loop env addr l = l.any (pattern_allows env addr) := by
  intro l
  induction l with
  | nil => rfl
  | cons p rest ih =>
    rw [List.any_cons, ← ih]
    show check_loop env addr (p :: rest) = _
    rw [check_loop, pattern_allows]
    cases h : rsplit_once p ':' with
    | none => simp
    | some pr =>
      obtain ⟨host_pat, port_pat⟩ := pr
      by_cases hp : (decide (port_pat = "*") ||
          decide (parseU16 port_pat = some addr.port)) = false
      · simp [hp]
      · simp only [hp, if_neg, Bool.false_eq_true, ite_false]
        by_cases hh : host_pat = "*"
        · simp [hh]
        · cases hip : env.parseIp (trimBrackets host_pat) with
          | none => simp [hh, hip]
          | some ip =>
            by_cases he : addr.ip = ip
            · simp [hh, hip, he]
            · simp [hh, hip, he]

lemma pattern_allows_iff_spec (env : NetEnv) (addr : SocketAddr) (p : String) :
    pattern_allows env addr p = true ↔ patternMatchSpec env p addr := by
  rw [pattern_allows, patternMatchSpec]
  cases h : rsplit_once p ':' with
  | none => simp
  | some pr =>
    obtain ⟨host_pat, port_pat⟩ := pr
    by_cases hh : host_pat = "*"
    · by_cases hp : port_pat = "*"
      · simp [hh, hp]
      · simp [hh, hp]
    · cases hip : env.parseIp (trimBrackets host_pat) with
      | none =>
        simp only [hip, hh, if_false, ite_false]
        by_cases hp : (decide (port_pat = "*") ||
            decide (parseU16 port_pat = some addr.port)) = false <;> simp [hp]
      | some ip =>
        by_cases hp : port_pat = "*"
        · simp [hh, hip, hp]
        · simp [hh, hip, hp, and_comm]

lemma foldl_resolveStep_lookup (env : NetEnv) :
    ∀ (l : List String) (m : String → Option (List String)) (q : String),
      (l.foldl (resolveStep env) m) q =
        if q ∈ l ∧ (resolve_pattern env q).isSome = true then resolve_pattern env q
        else m q := by
  intro l
  induction l with
  | nil => intro m q; simp
  | cons p rest ih =>
    intro m q
    rw [List.foldl_cons, ih]
    by_cases hq : q ∈ rest ∧ (resolve_pattern env q).isSome = true
    · have : q ∈ p :: rest ∧ (resolve_pattern env q).isSome = true :=
        ⟨List.mem_cons_of_mem p hq.1, hq.2⟩
      simp [hq, this]
    · rw [if_neg hq]
      by_cases hqp : q = p
      · subst hqp
        cases hr : resolve_pattern env q with
        | none => simp [resolveStep, hr]
        | some r => simp [resolveStep, hr, mapInsert]
      · have hnm : ¬(q ∈ p :: rest ∧ (resolve_pattern env q).isSome = true) := by
          intro hc
          rcases List.mem_cons.mp hc.1 with h1 | h1
          · exact hqp h1
          · exact hq ⟨h1, hc.2⟩
        rw [if_neg hnm]
        cases hr : resolve_pattern env p with
        | none => simp [resolveStep, hr]
        | some r => simp [resolveStep, hr, mapInsert, hqp]

lemma resolved_patterns_new (env : NetEnv) (s : NetworkSpec) (q : String) :
    (NetworkChecker.new env s).resolved_patterns q =
      if q ∈ s.allPatterns ∧ (resolve_pattern env q).isSome = true then resolve_pattern env q
      else none := by
  show (s.allPatterns.dedup.foldl (resolveStep env) (fun _ => none)) q = _
  rw [foldl_resolveStep_lookup]
  simp [List.mem_dedup]

lemma original_new (env : NetEnv) (s : NetworkSpec) (u : SocketAddrUse) :
    (NetworkChecker.new env s).original u = s.listFor u := by
  cases u <;> rfl

lemma listFor_mem_allPatterns (s : NetworkSpec) (u : SocketAddrUse) (p : String)
    (h : p ∈ s.listFor u) : p ∈ s.allPatterns := by
  cases u <;> simp_all [NetworkSpec.listFor, NetworkSpec.allPatterns]

lemma foldr_resolved_congr {α : Type} (g₁ g₂ : α → List String) :
    ∀ l : List α, (∀ x ∈ l, g₁ x = g₂ x) →
      l.foldr (fun x acc => g₁ x ++ acc) [] = l.foldr (fun x acc => g₂ x ++ acc) [] := by
  intro l
  induction l with
  | nil => intro _; rfl
  | cons x rest ih =>
    intro h
    simp only [List.foldr_cons]
    rw [h x (List.mem_cons_self x rest), ih (fun y hy => h y (List.mem_cons_of_mem x hy))]

lemma get_patterns_new (env : NetEnv) (s : NetworkSpec) (u : SocketAddrUse) :
    (NetworkChecker.new env s).get_patterns u =
      s.listFor u ++
        (s.listFor u).foldr (fun p acc => (resolve_pattern env p).getD [] ++ acc) [] := by
  rw [NetworkChecker.get_patterns, original_new]
  congr 1
  apply foldr_resolved_congr
  intro p hp
  rw [resolved_patterns_new]
  by_cases hmem : p ∈ s.allPatterns ∧ (resolve_pattern env p).isSome = true
  · rw [if_pos hmem]
    cases hr : resolve_pattern env p with
    | none => rw [hr] at hmem; simp at hmem
    | some r => simp
  · rw [if_neg hmem]
    cases hr : resolve_pattern env p with
    | none => simp
    | some r =>
      exact absurd ⟨listFor_mem_allPatterns s u p hp, by rw [hr]; rfl⟩ hmem

lemma mem_foldr_append {α : Type} (g : α → List String) (a : String) :
    ∀ l : List α, (a ∈ l.foldr (fun x acc => g x ++ acc) [] ↔ ∃ x ∈ l, a ∈ g x) := by
  intro l
  induction l with
  | nil => simp
  | cons x rest ih => simp [List.foldr_cons, List.mem_append, ih]

lemma erase_listFor (s : NetworkSpec) (p : String) (u : SocketAddrUse) :
    (s.erasePattern p).listFor u = (s.listFor u).filter (fun q => q != p) := by
  cases u <;> rfl

lemma check_new_erase (env : NetEnv) (s : NetworkSpec) (p : String)
    (hm : ∀ addr, pattern_allows env addr p = false)
    (hr : resolve_pattern env p = none) (addr : SocketAddr) (u : SocketAddrUse) :
    (NetworkChecker.new env s).check env addr u =
      (NetworkChecker.new env (s.erasePattern p)).check env addr u := by
  apply bool_eq_of_iff
  rw [NetworkChecker.check, NetworkChecker.check, check_loop_eq_any, check_loop_eq_any,
    List.any_eq_true, List.any_eq_true, get_patterns_new, get_patterns_new, erase_listFor]
  constructor
  · rintro ⟨q, hq, hmatch⟩
    have hqp : q ≠ p := by
      intro he
      subst he
      rw [hm addr] at hmatch
      exact Bool.false_ne_true hmatch
    rcases List.mem_append.mp hq with hq1 | hq2
    · refine ⟨q, List.mem_append_left _ ?_, hmatch⟩
      exact List.mem_filter.mpr ⟨hq1, by simpa using hqp⟩
    · rw [mem_foldr_append] at hq2
      obtain ⟨r, hr1, hr2⟩ := hq2
      have hrp : r ≠ p := by
        intro he
        subst he
        rw [hr] at hr2
        simp at hr2
      refine ⟨q, List.mem_append_right _ ?_, hmatch⟩
      rw [mem_foldr_append]
      exact ⟨r, List.mem_filter.mpr ⟨hr1, by simpa using hrp⟩, hr2⟩
  · rintro ⟨q, hq, hmatch⟩
    refine ⟨q, ?_, hmatch⟩
    rcases List.mem_append.mp hq with hq1 | hq2
    · exact List.mem_append_left _ (List.mem_filter.mp hq1).1
    · rw [mem_foldr_append] at hq2
      obtain ⟨r, hr1, hr2⟩ := hq2
      refine List.mem_append_right _ ?_
      rw [mem_foldr_append]
      exact ⟨r, (List.mem_filter.mp hr1).1, hr2⟩

/-- C1: for every socket address and every socket use, `check` consults the
declared pattern list for that use augmented with the resolved-IP patterns
of its entries (`get_patterns`) and returns `true` exactly when some pattern
of that augmented list matches the address under the rules of the
specification's table (`patternMatchSpec`): host `*` with port `*` always;
host `*` with decimal port `n` when the address's port is `n`; a literal-IP
host with port `*` when the address equals the IP; a literal-IP host with
decimal port `n` when both agree; a DNS-name host never directly. When no
pattern matches, `check` returns `false` (deny). -/
theorem network_check_iff_some_pattern_matches (env : NetEnv) (c : NetworkChecker)
    (addr : SocketAddr) (u : SocketAddrUse) :
    c.check env addr u = true ↔ ∃ p ∈ c.get_patterns u, patternMatchSpec env p addr := by
  rw [NetworkChecker.check, check_loop_eq_any, List.any_eq_true]
  constructor
  · rintro ⟨p, hp, h⟩
    exact ⟨p, hp, (pattern_allows_iff_spec env addr p).mp h⟩
  · rintro ⟨p, hp, h⟩
    exact ⟨p, hp, (pattern_allows_iff_spec env addr p).mpr h⟩

/-- C8: use isolation. For a fixed environment (IP parsing and startup DNS
state), the value of `check` for a socket use depends only on the pattern
list declared for that use — two specs with the same list for `u` yield
checkers that agree on every address at `u`, whatever the other four lists
allow. In particular an address allowed for one use is not thereby allowed
for another. -/
theorem check_depends_only_on_its_use_list (env : NetEnv) (s1 s2 : NetworkSpec)
    (u : SocketAddrUse) (h : s1.listFor u = s2.listFor u) (addr : SocketAddr) :
    (NetworkChecker.new env s1).check env addr u =
      (NetworkChecker.new env s2).check env addr u := by
  rw [NetworkChecker.check, NetworkChecker.check, get_patterns_new, get_patterns_new, h]

/-- C9: a pattern whose host part is a DNS name (neither `*` nor a literal
IP) and whose startup resolution failed or produced no addresses is retained
in the declared lists, gets no resolved-IP patterns recorded, matches no
socket address directly, and `check` never returns `true` by virtue of it:
erasing the pattern from the spec leaves every `check` answer unchanged. -/
theorem unresolved_hostname_pattern_is_inert (env : NetEnv) (s : NetworkSpec)
    (p host_pat port_pat : String)
    (hsplit : rsplit_once p ':' = some (host_pat, port_pat))
    (hhost : host_pat ≠ "*")
    (hip : env.parseIp host_pat = none)
    (hiptrim : env.parseIp (trimBrackets host_pat) = none)
    (hdns : to_socket_addrs env host_pat port_pat = none ∨
      to_socket_addrs env host_pat port_pat = some []) :
    (∀ u, (NetworkChecker.new env s).original u = s.listFor u) ∧
    (NetworkChecker.new env s).resolved_patterns p = none ∧
    (∀ addr, pattern_allows env addr p = false) ∧
    (∀ addr u, (NetworkChecker.new env s).check env addr u =
      (NetworkChecker.new env (s.erasePattern p)).check env addr u) := by
  have hres : resolve_pattern env p = none := by
    rcases hdns with hd | hd
    · simp [resolve_pattern, hsplit, hhost, hip, hd]
    · simp [resolve_pattern, hsplit, hhost, hip, hd]
  have hallow : ∀ addr, pattern_allows env addr p = false := by
    intro addr
    rw [pattern_allows, hsplit]
    by_cases hp : (decide (port_pat = "*") ||
        decide (parseU16 port_pat = some addr.port)) = false
    · simp [hp]
    · simp [hp, hhost, hiptrim]
  refine ⟨fun u => original_new env s u, ?_, hallow,
    fun addr u => check_new_erase env s p hallow hres addr u⟩
  rw [resolved_patterns_new]
  simp [hres]

/-- C10: `check` is total on malformed patterns. A pattern with no `:`
separator, or whose port part is neither `*` nor a decimal that fits a
`u16`, matches no address, obtains no resolved patterns, and is silently
inert: erasing it from the spec leaves every `check` answer unchanged
(`check` being a total `Bool`-valued function, no error is possible). -/
theorem malformed_pattern_is_inert (env : NetEnv) (s : NetworkSpec) (p : String)
    (h : rsplit_once p ':' = none ∨
      ∃ host_pat port_pat, rsplit_once p ':' = some (host_pat, port_pat) ∧
        port_pat ≠ "*" ∧ parseU16 port_pat = none) :
    (∀ addr, pattern_allows env addr p = false) ∧
    resolve_pattern env p = none ∧
    (NetworkChecker.new env s).resolved_patterns p = none ∧
    (∀ addr u, (NetworkChecker.new env s).check env addr u =
      (NetworkChecker.new env (s.erasePattern p)).check env addr u) := by
  have hallow : ∀ addr, pattern_allows env addr p = false := by
    intro addr
    rcases h with hn | ⟨hpat, pp, hs, hne, hpp⟩
    · rw [pattern_allows, hn]
    · rw [pattern_allows, hs]
      have hfalse : (decide (pp = "*") || decide (parseU16 pp = some addr.port)) = false := by
        simp [hne, hpp]
      simp [hfalse]
  have hres : resolve_pattern env p = none := by
    rcases h with hn | ⟨hpat, pp, hs, hne, hpp⟩
    · rw [resolve_pattern, hn]
    · by_cases hcond : hpat = "*" ∨ (env.parseIp hpat).isSome = true
      · simp [resolve_pattern, hs, hcond]
      · simp [resolve_pattern, hs, hcond, to_socket_addrs, hpp]
  refine ⟨hallow, hres, ?_, fun addr u => check_new_erase env s p hallow hres addr u⟩
  rw [resolved_patterns_new]
  simp [hres]

/-- Fixture environment for the concrete witnesses: `1.2.3.4` is the only
string read as a literal IP, and DNS resolution fails for every name. -/
def envStub : NetEnv :=
  { parseIp := fun s => if s = "1.2.3.4" then some (IpAddr.v4 1 2 3 4) else none
    dns := fun _ => none
    fmtIp := fun _ => "" }

/-- Fixture environment in which no string is a literal IP and DNS always
fails. -/
def envDnsFail : NetEnv :=
  { parseIp := fun _ => none
    dns := fun _ => none
    fmtIp := fun _ => "" }

/-- Fixture spec whose `tcpConnect` list coincides with `specWitnessB`
while every other list differs. -/
def specWitnessA : NetworkSpec :=
  { inherit := false
    allow_ip_name_lookup := true
    tcp_bind := ["9.9.9.9:1"]
    tcp_connect := ["1.2.3.4:80"]
    udp_bind := []
    udp_connect := []
    udp_outgoing := [] }

/-- Counterpart fixture of `specWitnessA`. -/
def specWitnessB : NetworkSpec :=
  { inherit := false
    allow_ip_name_lookup := false
    tcp_bind := []
    tcp_connect := ["1.2.3.4:80"]
    udp_bind := ["5.5.5.5:53"]
    udp_connect := []
    udp_outgoing := ["*:*"] }

/-- Fixture spec declaring an unresolvable hostname pattern. -/
def specWitnessC : NetworkSpec :=
  { inherit := false
    allow_ip_name_lookup := true
    tcp_bind := []
    tcp_connect := ["example.com:8080", "1.2.3.4:80"]
    udp_bind := []
    udp_connect := []
    udp_outgoing := [] }

/-- Fixture spec declaring a pattern whose port does not fit a `u16`. -/
def specWitnessD : NetworkSpec :=
  { inherit := false
    allow_ip_name_lookup := true
    tcp_bind := []
    tcp_connect := ["1.2.3.4:99999", "1.2.3.4:80"]
    udp_bind := []
    udp_connect := []
    udp_outgoing := [] }

/-- Witness for C8 at concrete inputs: the two fixture specs share the
`tcpConnect` list, and their checkers agree there. -/
theorem check_depends_only_on_its_use_list_witness :
    specWitnessA.listFor SocketAddrUse.tcpConnect =
      specWitnessB.listFor SocketAddrUse.tcpConnect ∧
    (NetworkChecker.new envStub specWitnessA).check envStub
        ⟨IpAddr.v4 1 2 3 4, 80⟩ SocketAddrUse.tcpConnect =
      (NetworkChecker.new envStub specWitnessB).check envStub
        ⟨IpAddr.v4 1 2 3 4, 80⟩ SocketAddrUse.tcpConnect :=
  ⟨rfl, check_depends_only_on_its_use_list envStub specWitnessA specWitnessB
    SocketAddrUse.tcpConnect rfl ⟨IpAddr.v4 1 2 3 4, 80⟩⟩

/-- Witness for C9 at concrete inputs: `example.com:8080` fails to resolve
in the fixture environment, records no resolved patterns, and erasing it
does not change the checker's answer. -/
theorem unresolved_hostname_pattern_is_inert_witness :
    (NetworkChecker.new envDnsFail specWitnessC).resolved_patterns "example.com:8080" = none ∧
    (NetworkChecker.new envDnsFail specWitnessC).check envDnsFail
        ⟨IpAddr.v4 127 0 0 1, 8080⟩ SocketAddrUse.tcpConnect =
      (NetworkChecker.new envDnsFail (specWitnessC.erasePattern "example.com:8080")).check
        envDnsFail ⟨IpAddr.v4 127 0 0 1, 8080⟩ SocketAddrUse.tcpConnect := by
  have h := unresolved_hostname_pattern_is_inert envDnsFail specWitnessC
    "example.com:8080" "example.com" "8080" (by decide) (by decide) rfl rfl (Or.inl rfl)
  exact ⟨h.2.1, h.2.2.2 ⟨IpAddr.v4 127 0 0 1, 8080⟩ SocketAddrUse.tcpConnect⟩

/-- Witness for C10 at concrete inputs: the pattern `1.2.3.4:99999` (port
past `u16`) matches nothing and erasing it does not change the checker's
answer. -/
theorem malformed_pattern_is_inert_witness :
    pattern_allows envStub ⟨IpAddr.v4 1 2 3 4, 99999⟩ "1.2.3.4:99999" = false ∧
    (NetworkChecker.new envStub specWitnessD).check envStub
        ⟨IpAddr.v4 1 2 3 4, 99999⟩ SocketAddrUse.tcpConnect =
      (NetworkChecker.new envStub (specWitnessD.erasePattern "1.2.3.4:99999")).check
        envStub ⟨IpAddr.v4 1 2 3 4, 99999⟩ SocketAddrUse.tcpConnect := by
  have h := malformed_pattern_is_inert envStub specWitnessD "1.2.3.4:99999"
    (Or.inr ⟨"1.2.3.4", "99999", by decide, by decide, by decide⟩)
  exact ⟨h.1 ⟨IpAddr.v4 1 2 3 4, 99999⟩,
    h.2.2.2 ⟨IpAddr.v4 1 2 3 4, 99999⟩ SocketAddrUse.tcpConnect⟩

/-- C2: the runner chooses the image reference from the configuration
document's `image` field, and falls back to the `IMAGE` environment
variable (`image_env`) only when that field is empty. Stated over
`chooseImage`, the entrypoint's image selection modelled from the spec. -/
theorem image_selection_prefers_config_image (c : WasiConfig) (image_env : Option String) :
    (c.image ≠ "" → chooseImage c image_env = some c.image) ∧
    (c.image = "" → chooseImage c image_env = image_env) := by
  constructor
  · intro h
    rw [chooseImage, if_neg h]
  · intro h
    rw [chooseImage, if_pos h]

/-- Fixture resources map with no entries. -/
def emptyResources : ResourceRequirements :=
  ⟨fun _ => none, fun _ => none⟩

/-- Fixture configuration whose `image` field is set. -/
def cfgWithImage : WasiConfig :=
  { image := "ghcr.io/example/mod:1"
    args := []
    env := []
    volume_mounts := []
    resources := emptyResources
    network := none }

/-- Fixture configuration whose `image` field is empty. -/
def cfgNoImage : WasiConfig :=
  { image := ""
    args := []
    env := []
    volume_mounts := []
    resources := emptyResources
    network := none }

/-- Witness for C2 at concrete inputs: a non-empty `image` field beats the
environment variable, an empty one defers to it. -/
theorem image_selection_prefers_config_image_witness :
    chooseImage cfgWithImage (some "ghcr.io/other/env:2") = some "ghcr.io/example/mod:1" ∧
    chooseImage cfgNoImage (some "ghcr.io/other/env:2") = some "ghcr.io/other/env:2" :=
  ⟨(image_selection_prefers_config_image cfgWithImage (some "ghcr.io/other/env:2")).1
      (by decide),
   (image_selection_prefers_config_image cfgNoImage (some "ghcr.io/other/env:2")).2 rfl⟩

/-- C4 counterexample: the claim as stated fails on `"16Ei"`. The claimed
byte count is `16 * 2 ^ 60 = 2 ^ 64`, but the `usize` products of
`parse_memory_quantity` wrap at `2 ^ 64`, so the code computes a memory
ceiling of `0` bytes instead. -/
theorem parse_memory_quantity_overflow_cex :
    parse_memory_quantity "16Ei" = some 0 ∧
    parse_memory_quantity "16Ei" ≠ some (16 * 2 ^ 60) := by
  constructor
  · decide
  · decide

lemma option_map_congr (x : Option Nat) (f g : Nat → Nat) (h : ∀ n, f n = g n) :
    x.map f = x.map g := by
  cases x with
  | none => rfl
  | some v => simp [h v]

set_option maxRecDepth 4000 in
lemma parse_memory_quantity_eq_spec (s : String) :
    parse_memory_quantity s = memory_quantity_spec s := by
  simp only [parse_memory_quantity, memory_quantity_spec, memQuantityLookup, memSuffixes]
  by_cases h1 : endsWithStr (trimString s) "Ei" = true
  · rw [if_pos h1, if_pos h1]
    exact option_map_congr _ _ _ (fun n => by congr 1 <;> ring)
  · rw [if_neg h1, if_neg h1]
    by_cases h2 : endsWithStr (trimString s) "Pi" = true
    · rw [if_pos h2, if_pos h2]
      exact option_map_congr _ _ _ (fun n => by congr 1 <;> ring)
    · rw [if_neg h2, if_neg h2]
      by_cases h3 : endsWithStr (trimString s) "Ti" = true
      · rw [if_pos h3, if_pos h3]
        exact option_map_congr _ _ _ (fun n => by congr 1 <;> ring)
      · rw [if_neg h3, if_neg h3]
        by_cases h4 : endsWithStr (trimString s) "Gi" = true
        · rw [if_pos h4, if_pos h4]
          exact option_map_congr _ _ _ (fun n => by congr 1 <;> ring)
        · rw [if_neg h4, if_neg h4]
          by_cases h5 : endsWithStr (trimString s) "Mi" = true
          · rw [if_pos h5, if_pos h5]
            exact option_map_congr _ _ _ (fun n => by congr 1 <;> ring)
          · rw [if_neg h5, if_neg h5]
            by_cases h6 : endsWithStr (trimString s) "Ki" = true
            · rw [if_pos h6, if_pos h6]
              exact option_map_congr _ _ _ (fun n => by congr 1 <;> ring)
            · rw [if_neg h6, if_neg h6]
              by_cases h7 : endsWithStr (trimString s) "E" = true
              · rw [if_pos h7, if_pos h7]
                exact option_map_congr _ _ _ (fun n => by congr 1 <;> ring)
              · rw [if_neg h7, if_neg h7]
                by_cases h8 : endsWithStr (trimString s) "P" = true
                · rw [if_pos h8, if_pos h8]
                  exact option_map_congr _ _ _ (fun n => by congr 1 <;> ring)
                · rw [if_neg h8, if_neg h8]
                  by_cases h9 : endsWithStr (trimString s) "T" = true
                  · rw [if_pos h9, if_pos h9]
                    exact option_map_congr _ _ _ (fun n => by congr 1 <;> ring)
                  · rw [if_neg h9, if_neg h9]
                    by_cases h10 : endsWithStr (trimString s) "G" = true
                    · rw [if_pos h10, if_pos h10]
                      exact option_map_congr _ _ _ (fun n => by congr 1 <;> ring)
                    · rw [if_neg h10, if_neg h10]
                      by_cases h11 : endsWithStr (trimString s) "M" = true
                      · rw [if_pos h11, if_pos h11]
                        exact option_map_congr _ _ _ (fun n => by congr 1 <;> ring)
                      · rw [if_neg h11, if_neg h11]
                        by_cases h12 : endsWithStr (trimString s) "k" = true
                        · rw [if_pos h12, if_pos h12]
                          exact option_map_congr _ _ _ (fun n => by congr 1 <;> ring)
                        · rw [if_neg h12, if_neg h12]

/-- C4 as amended: for every string, `parse_memory_quantity` agrees with the
specification's quantity grammar read over 64-bit machine arithmetic
(`memory_quantity_spec`): after trimming, a decimal integer that fits a
64-bit `usize` with suffix `k`/`M`/`G`/`T`/`P`/`E` is multiplied by the
corresponding power of `10 ^ 3` and with suffix `Ki`/`Mi`/`Gi`/`Ti`/`Pi`/
`Ei` by the corresponding power of `2 ^ 10`, the product taken modulo
`2 ^ 64`; no suffix means bytes; any other string yields `none`, which
`build_store_limits` turns into an absent memory ceiling. -/
theorem parse_memory_quantity_matches_wrapping_grammar :
    (∀ s : String, parse_memory_quantity s = memory_quantity_spec s) ∧
    (∀ config : WasiConfig,
      build_store_limits config =
        (config.resources.get_memory).bind memory_quantity_spec) := by
  refine ⟨parse_memory_quantity_eq_spec, fun config => ?_⟩
  rw [build_store_limits]
  cases config.resources.get_memory with
  | none => rfl
  | some memory_str => simp [parse_memory_quantity_eq_spec memory_str]

lemma take_len_append {α : Type} : ∀ l₁ l₂ : List α, (l₁ ++ l₂).take l₁.length = l₁
  | [], _ => rfl
  | a :: t, l₂ => by simp [take_len_append t l₂]

lemma drop_len_append {α : Type} : ∀ l₁ l₂ : List α, (l₁ ++ l₂).drop l₁.length = l₂
  | [], _ => rfl
  | a :: t, l₂ => by simp [drop_len_append t l₂]

lemma strip_oci_scheme_append (rest : String) :
    strip_oci_scheme ("oci://" ++ rest) = rest := by
  obtain ⟨rdata⟩ := rest
  rw [strip_oci_scheme]
  have hsw : startsWithStr ("oci://" ++ String.mk rdata) "oci://" = true := by
    show decide ((("oci://".data ++ rdata).take "oci://".data.length) = "oci://".data) = true
    rw [take_len_append]
    simp
  rw [if_pos hsw]
  show String.mk (("oci://".data ++ rdata).drop "oci://".data.length) = String.mk rdata
  rw [drop_len_append]

/-- C5: the OCI fetch strips the `oci://` prefix before parsing the
reference, returns the single layer's raw bytes when the pulled artifact has
exactly one layer, and fails with an error stating the observed layer count
when it does not. -/
theorem fetch_oci_image_single_layer_contract {Ref : Type}
    (parseRef : String → Except String Ref) (pull : Ref → Except String OciImage) :
    (∀ rest, fetch_oci_image parseRef pull ("oci://" ++ rest) =
      fetch_from_registry parseRef pull rest) ∧
    (∀ imgname imgref image,
      parseRef (strip_oci_scheme imgname) = Except.ok imgref →
      pull imgref = Except.ok image →
      (∀ wasm, image.layers = [wasm] →
        fetch_oci_image parseRef pull imgname = Except.ok wasm) ∧
      (image.layers.length ≠ 1 →
        fetch_oci_image parseRef pull imgname =
          Except.error ("expected to have one layer, got " ++ toString image.layers.length))) := by
  constructor
  · intro rest
    rw [fetch_oci_image, strip_oci_scheme_append]
  · intro imgname imgref image hparse hpull
    constructor
    · intro wasm hw
      simp [fetch_oci_image, fetch_from_registry, hparse, hpull, hw]
    · intro hlen
      simp [fetch_oci_image, fetch_from_registry, hparse, hpull, hlen]

/-- Fixture reference parser: every string parses, to itself. -/
def refParseId : String → Except String String :=
  fun s => Except.ok s

/-- Fixture artifact with two layers. -/
def twoLayerImage : OciImage :=
  ⟨[[0], [1]]⟩

/-- Fixture pull returning the two-layer artifact for every reference. -/
def pullTwoLayer : String → Except String OciImage :=
  fun _ => Except.ok twoLayerImage

/-- Witness for C5 at concrete inputs: pulling a two-layer artifact through
an `oci://`-prefixed reference fails with the message stating the count. -/
theorem fetch_oci_image_single_layer_contract_witness :
    fetch_oci_image refParseId pullTwoLayer "oci://reg.example/mod:1" =
      Except.error "expected to have one layer, got 2" := by
  have h := (fetch_oci_image_single_layer_contract refParseId pullTwoLayer).2
    "oci://reg.example/mod:1" (strip_oci_scheme "oci://reg.example/mod:1") twoLayerImage
    rfl rfl
  have h2 := h.2 (by decide)
  rw [show ("expected to have one layer, got " ++ toString twoLayerImage.layers.length) =
    "expected to have one layer, got 2" from by decide] at h2
  exact h2

/-- C6: when the rendezvous sender is dropped without a
`response-outparam::set` call (the receiver yields nothing), the host awaits
the guest task result and returns an error: a guest that ended `Ok` yields
an error containing the string `guest never invoked response-outparam::set`,
and a guest that ended with error `e` yields `e` annotated with the same
message. -/
theorem rendezvous_dropped_reports_missing_set (Resp : Type) (e : List String) :
    handle_request_rendezvous Resp none (Except.ok (Except.ok ())) =
      Except.error [outparam_msg] ∧
    handle_request_rendezvous Resp none (Except.ok (Except.error e)) =
      Except.error (outparam_msg :: e) ∧
    outparam_msg ∈ [outparam_msg] ∧ outparam_msg ∈ outparam_msg :: e :=
  ⟨rfl, rfl, List.mem_singleton.mpr rfl, List.mem_cons_self _ _⟩

lemma build_preopens_first_missing (exists_ : String → Bool) :
    ∀ (mounts : List VolumeMount) (m : VolumeMount), m ∈ mounts →
      exists_ (mount_host_path m) = false →
      ∃ mf, mf ∈ mounts ∧ exists_ (mount_host_path mf) = false ∧
        build_preopens exists_ mounts = Except.error (mount_missing_msg mf) := by
  intro mounts
  induction mounts with
  | nil => intro m hm _; exact absurd hm (List.not_mem_nil m)
  | cons m0 rest ih =>
    intro m hm hmiss
    by_cases h0 : exists_ (mount_host_path m0) = false
    · refine ⟨m0, List.mem_cons_self _ _, h0, ?_⟩
      simp [build_preopens, h0]
    · have hm2 : m ∈ rest := by
        rcases List.mem_cons.mp hm with h1 | h1
        · subst h1; exact absurd hmiss h0
        · exact h1
      obtain ⟨mf, hmf1, hmf2, hmf3⟩ := ih m hm2 hmiss
      refine ⟨mf, List.mem_cons_of_mem _ hmf1, hmf2, ?_⟩
      simp [build_preopens, h0, hmf3]

/-- C7: for every volume mount of the configuration, the sandbox factory
computes the host path as `mountPath` when `subPath` is empty and
`join(mountPath, subPath)` otherwise (`mount_host_path`); if some mount's
host path does not exist at build time, `build_wasi_ctx` returns an error
naming a missing mount and its path (the first such mount, in declared
order) and produces no sandbox. -/
theorem missing_mount_path_fails_sandbox_build (exists_ : String → Bool)
    (config : WasiConfig) (m : VolumeMount) (hm : m ∈ config.volume_mounts)
    (hmiss : exists_ (mount_host_path m) = false) :
    ∃ mf, mf ∈ config.volume_mounts ∧ exists_ (mount_host_path mf) = false ∧
      build_wasi_ctx exists_ config = Except.error (mount_missing_msg mf) := by
  obtain ⟨mf, h1, h2, h3⟩ :=
    build_preopens_first_missing exists_ config.volume_mounts m hm hmiss
  refine ⟨mf, h1, h2, ?_⟩
  rw [build_wasi_ctx, h3]

/-- Fixture mount with an empty `subPath`. -/
def mountFixture : VolumeMount :=
  ⟨"data", "/data", false, ""⟩

/-- Fixture configuration declaring only `mountFixture`. -/
def cfgWithMount : WasiConfig :=
  { image := ""
    args := []
    env := []
    volume_mounts := [mountFixture]
    resources := emptyResources
    network := none }

/-- Witness for C7 at concrete inputs: on a filesystem where nothing exists,
building the sandbox context fails with the error naming the mount and
path. -/
theorem missing_mount_path_fails_sandbox_build_witness :
    build_wasi_ctx (fun _ => false) cfgWithMount =
      Except.error "Volume mount \u0027data\u0027 path does not exist: /data" := by
  obtain ⟨mf, h1, h2, h3⟩ := missing_mount_path_fails_sandbox_build (fun _ => false)
    cfgWithMount mountFixture (by decide) rfl
  have hmf : mf = mountFixture := by
    simp [cfgWithMount] at h1
    exact h1
  rw [hmf] at h3
  rw [h3]
  rw [show mount_missing_msg mountFixture =
    "Volume mount \u0027data\u0027 path does not exist: /data" from by decide]

end KnRunner
